import Mathlib

/-!
# TsukinoRegistryFactory: a verification development

Shallow embedding of `include/TsukinoRegistryFactory/RegistryFactory.hpp`
(the class template `RegistryFactory<Base>`) and of the two commands of
`example/example.cpp`.

Modelling conventions.

* A C++ call either returns a value, lets an exception escape, or ends the
  process through `std::terminate`; `Outcome` records which.  State that
  outlives the call (the static map, the rest of the program state) is passed
  explicitly and is returned next to the outcome, so it survives a throw.
* `std::unique_ptr<Base>` is `Option P`: `none` is `nullptr`, `some p` owns the
  object `p`.
* `std::function<std::unique_ptr<Base>()>` is `Creator`: either empty, or a
  callable acting on the program state `W` outside the registry.  Creators
  whose code calls `registerClass` on their own registry are the subject of the
  section on `ReentrantCreator`.
* `std::unordered_map<std::string, Creator>` is a list of (key, creator) pairs;
  the code never iterates over the map, so the order of the list is not
  observable through `registerClass` and `create`.
-/

namespace TsukinoRegistryFactory

/-- Exceptions that can travel through the registry: the `std::runtime_error`
thrown by `registerClass`, the `std::bad_function_call` of an empty
`std::function`, and whatever a concrete constructor throws. -/
inductive Exception (E : Type) where
  | runtime_error (what : String)
  | bad_function_call
  | other (e : E)
  deriving DecidableEq, Repr

/-- How a C++ call ends. -/
inductive Outcome (E α : Type) where
  | returned (a : α)
  | threw (e : Exception E)
  | terminated
  deriving DecidableEq, Repr

/-- The type alias `Creator = std::function<std::unique_ptr<Base>()>`. -/
inductive Creator (W E P : Type) where
  | empty
  | callable (f : W → Outcome E (Option P) × W)

/-- The call operator of `std::function`: an empty target throws
`std::bad_function_call`, otherwise the stored callable runs. -/
def Creator.invoke {W E P : Type} : Creator W E P → W → Outcome E (Option P) × W
  | .empty, w => (.threw .bad_function_call, w)
  | .callable f, w => f w

/-- The specifier `noexcept`: an exception that would leave the function calls
`std::terminate` instead. -/
def noexcept {W E α : Type} : Outcome E α × W → Outcome E α × W
  | (.threw _, w) => (.terminated, w)
  | r => r

/-- The static map `std::unordered_map<std::string, Creator>`. -/
abbrev Registry (W E P : Type) := List (String × Creator W E P)

/-- The initial value of the function-local static `instance` in `registry()`. -/
def Registry.instance {W E P : Type} : Registry W E P := []

/-- The member `unordered_map::count`. -/
def Registry.count {W E P : Type} (reg : Registry W E P) (name : String) : Nat :=
  (reg.filter (fun e => e.1 == name)).length

/-- The member `unordered_map::find`; `none` is the iterator `end()`. -/
def Registry.find {W E P : Type} (reg : Registry W E P) (name : String) :
    Option (String × Creator W E P) :=
  List.find? (fun e => e.1 == name) reg

/-- The keys held by the map. -/
def Registry.keys {W E P : Type} (reg : Registry W E P) : List String :=
  reg.map Prod.fst

/-- The member `unordered_map::emplace`: nothing is inserted when an element
with an equivalent key exists. -/
def Registry.emplace {W E P : Type} (reg : Registry W E P) (name : String)
    (creator : Creator W E P) : Registry W E P :=
  if reg.count name ≠ 0 then reg else reg ++ [(name, creator)]

/-- The `std::string` from which `registerClass` constructs the exception it
throws: the literal followed by the whole name. -/
def duplicateMessage (name : String) : String :=
  "RegistryFactory: Duplicate registration for key: " ++ name

/-- The member `what()` of a `std::runtime_error` constructed from `message`:
the message as a NUL-terminated C string, which ends at the first NUL
character of `message`. -/
def what (message : String) : String :=
  String.mk (message.data.takeWhile (fun c => c != Char.ofNat 0))

/-- The static member `registerClass(name, creator)`, acting on the static map. -/
def registerClass {W E P : Type} (name : String) (creator : Creator W E P)
    (reg : Registry W E P) : Outcome E Bool × Registry W E P :=
  if reg.count name ≠ 0 then
    (.threw (.runtime_error (duplicateMessage name)), reg)
  else
    (.returned true, reg.emplace name creator)

/-- The static member `create(name) noexcept`: it reads the static map and acts
on the rest of the program state through the creator it invokes. -/
def create {W E P : Type} (name : String) (reg : Registry W E P) (w : W) :
    Outcome E (Option P) × W :=
  noexcept
    (match reg.find name with
     | some it => it.2.invoke w
     | none => (.returned none, w))

/-! ## Sequences of calls on one registry -/

/-- The state a client of `RegistryFactory<Base>` runs in: the static map and
the rest of the program state. -/
structure Process (W E P : Type) where
  registry : Registry W E P
  world : W

/-- One call of the public interface. -/
inductive Call (W E P : Type) where
  | registerClass (name : String) (creator : Creator W E P)
  | create (name : String)

/-- What the caller observes of one call. -/
inductive Reply (E P : Type) where
  | registerClass (r : Outcome E Bool)
  | create (r : Outcome E (Option P))

/-- Executes one call; `registerClass` acts on the static map, `create` on the
rest of the program state. -/
def exec {W E P : Type} : Call W E P → Process W E P → Reply E P × Process W E P
  | .registerClass name creator, s =>
    let r := registerClass name creator s.registry
    (.registerClass r.1, { s with registry := r.2 })
  | .create name, s =>
    let r := create name s.registry s.world
    (.create r.1, { s with world := r.2 })

/-- Holds of a reply after which the process no longer runs. -/
def Reply.isTerminated {E P : Type} : Reply E P → Bool
  | .registerClass .terminated => true
  | .create .terminated => true
  | _ => false

/-- Runs a client that makes the given calls in order and catches the exception
of a failed `registerClass`; the run stops when the process terminates. -/
def run {W E P : Type} : List (Call W E P) → Process W E P → List (Reply E P) × Process W E P
  | [], s => ([], s)
  | c :: cs, s =>
    let r := exec c s
    if r.1.isTerminated then ([r.1], r.2)
    else
      let rest := run cs r.2
      (r.1 :: rest.1, rest.2)

/-- Runs `registerClass` on each (name, creator) pair in order, a failed call
being caught by the caller. -/
def registerAll {W E P : Type} (calls : List (String × Creator W E P))
    (reg : Registry W E P) : Registry W E P :=
  calls.foldl (fun r c => (registerClass c.1 c.2 r).2) reg

/-! ## One static map per instantiation -/

/-- The function-local statics of `registry()`: every instantiation
`RegistryFactory<Base>` of the class template has its own map. -/
def Statics (W E : Type) {ι : Type} (P : ι → Type) : Type :=
  (Base : ι) → Registry W E (P Base)

/-- The statics before any call: every map is empty. -/
def Statics.initial {W E ι : Type} {P : ι → Type} : Statics W E P :=
  fun _ => Registry.instance

/-- The member `RegistryFactory<Base>::registerClass` on the statics of the program. -/
def registerClassFor {W E ι : Type} {P : ι → Type} [DecidableEq ι] (Base : ι) (name : String)
    (creator : Creator W E (P Base)) (g : Statics W E P) : Outcome E Bool × Statics W E P :=
  let r := registerClass name creator (g Base)
  (r.1, Function.update g Base r.2)

/-- The member `RegistryFactory<Base>::create` on the statics of the program. -/
def createFor {W E ι : Type} {P : ι → Type} (Base : ι) (name : String)
    (g : Statics W E P) (w : W) : Outcome E (Option (P Base)) × W :=
  create name (g Base) w

/-! ## Observing invocations and object identity -/

/-- A callable that counts its own invocations next to the program state. -/
def counting {W E P : Type} (f : W → Outcome E (Option P) × W) : Creator (W × Nat) E P :=
  .callable (fun s => let r := f s.1; (r.1, (r.2, s.2 + 1)))

/-- A creator produces a fresh object on every invocation: it returns an object
that was not live before the call and is live after it. -/
def Creator.Fresh {W E P : Type} (live : W → P → Prop) (c : Creator W E P) : Prop :=
  ∀ w, ∃ p w', c.invoke w = (.returned (some p), w') ∧ ¬ live w p ∧ live w' p

/-! ## The example program -/

/-- The concrete classes deriving from `Command` in `example.cpp`. -/
inductive Command where
  | PrintCommand
  | ExitCommand
  deriving DecidableEq, Repr

/-- The override of `execute()`: the text written to `std::cout`. -/
def Command.execute : Command → String
  | .PrintCommand => "PrintCommand executed\n"
  | .ExitCommand => "ExitCommand executed\n"

/-- The free store of the example: the objects allocated so far, an object's
address being its position. -/
abbrev Heap := List Command

/-- The objects of the free store that exist. -/
def Heap.live (h : Heap) (p : Nat) : Prop := p < h.length

/-- The call `std::make_unique<TYPE>()`: a new default-constructed object. -/
def make_unique (TYPE : Command) (h : Heap) : Option Nat × Heap :=
  (some h.length, h ++ [TYPE])

/-- The lambda of the registration macro, `[](){ return std::make_unique<TYPE>(); }`. -/
def makeLambda {E : Type} (TYPE : Command) (h : Heap) : Outcome E (Option Nat) × Heap :=
  let r := make_unique TYPE h
  (.returned r.1, r.2)

/-- The lambda of the registration macro, converted to `Creator` at the call
of `registerClass`. -/
def makeCreator {E : Type} (TYPE : Command) : Creator Heap E Nat :=
  .callable (makeLambda TYPE)

/-- The macro `TSUKINO_REGISTER_CLASS(KEY, TYPE, BASE)`: the initialiser of
`registered_TYPE`, run on the static map of `RegistryFactory<BASE>`. -/
def TSUKINO_REGISTER_CLASS {E : Type} (KEY : String) (TYPE : Command)
    (reg : Registry Heap E Nat) : Outcome E Bool × Registry Heap E Nat :=
  registerClass KEY (makeCreator TYPE) reg

/-- The static map of `RegistryFactory<Command>` when `main` of `example.cpp`
starts: both registration macros of the file have run, in source order. -/
def exampleRegistry : Registry Heap Empty Nat :=
  (TSUKINO_REGISTER_CLASS "exit" .ExitCommand
    (TSUKINO_REGISTER_CLASS "print" .PrintCommand Registry.instance).2).2

/-! ## Creators that call back into the registry

`registerClass` is a public static member, so the code of a creator can call
it on the very map that stores the creator.  `create` then leaves behind the
map the creator left.  The definitions of this section follow the same source
lines as `registerClass` and `create` above, with such creators admitted and
the map returned by `create` next to the program state. -/

/-- A creator as far as its calls into the registry go: code that stays
outside the registry, or a call `registerClass(name, creator)`, whose exception
is not caught, followed by more code. -/
inductive ReentrantCreator (W E P : Type) where
  | outside (c : Creator W E P)
  | registering (name : String) (creator : ReentrantCreator W E P)
      (rest : ReentrantCreator W E P)

/-- The static map when its creators may call back into the registry. -/
abbrev ReentrantRegistry (W E P : Type) := List (String × ReentrantCreator W E P)

/-- The member `unordered_map::count`. -/
def ReentrantRegistry.count {W E P : Type} (reg : ReentrantRegistry W E P) (name : String) :
    Nat :=
  (reg.filter (fun e => e.1 == name)).length

/-- The member `unordered_map::find`; `none` is the iterator `end()`. -/
def ReentrantRegistry.find {W E P : Type} (reg : ReentrantRegistry W E P) (name : String) :
    Option (String × ReentrantCreator W E P) :=
  List.find? (fun e => e.1 == name) reg

/-- The member `unordered_map::emplace`: nothing is inserted when an element
with an equivalent key exists. -/
def ReentrantRegistry.emplace {W E P : Type} (reg : ReentrantRegistry W E P) (name : String)
    (creator : ReentrantCreator W E P) : ReentrantRegistry W E P :=
  if reg.count name ≠ 0 then reg else reg ++ [(name, creator)]

/-- The static member `registerClass(name, creator)` on a map whose creators
may call back into the registry. -/
def registerClassReentrant {W E P : Type} (name : String) (creator : ReentrantCreator W E P)
    (reg : ReentrantRegistry W E P) : Outcome E Bool × ReentrantRegistry W E P :=
  if reg.count name ≠ 0 then
    (.threw (.runtime_error (duplicateMessage name)), reg)
  else
    (.returned true, reg.emplace name creator)

/-- The call operator of a stored creator: code outside the registry leaves
the map alone; a call of `registerClass` acts on the map, and its exception
leaves the creator. -/
def ReentrantCreator.invoke {W E P : Type} :
    ReentrantCreator W E P → ReentrantRegistry W E P → W →
      Outcome E (Option P) × (W × ReentrantRegistry W E P)
  | .outside c, reg, w => ((c.invoke w).1, ((c.invoke w).2, reg))
  | .registering name creator rest, reg, w =>
    match registerClassReentrant name creator reg with
    | (.returned _, reg1) => rest.invoke reg1 w
    | (.threw e, reg1) => (.threw e, (w, reg1))
    | (.terminated, reg1) => (.terminated, (w, reg1))

/-- The static member `create(name) noexcept` on a map whose creators may call
back into the registry; the map after the call is returned next to the program
state. -/
def createReentrant {W E P : Type} (name : String) (reg : ReentrantRegistry W E P) (w : W) :
    Outcome E (Option P) × (W × ReentrantRegistry W E P) :=
  noexcept
    (match reg.find name with
     | some it => it.2.invoke reg w
     | none => (.returned none, (w, reg)))

/-- A map whose creators all stay outside the registry, as a map of creators
that may call back. -/
def Registry.outside {W E P : Type} (reg : Registry W E P) : ReentrantRegistry W E P :=
  reg.map (fun e => (e.1, ReentrantCreator.outside e.2))

/-! ## Basic facts about the map operations -/

theorem Registry.count_eq_zero_iff {W E P : Type} (reg : Registry W E P) (name : String) :
    reg.count name = 0 ↔ reg.find name = none := by
  unfold Registry.count Registry.find
  induction reg with
  | nil => simp
  | cons e reg ih =>
    by_cases h : e.1 = name
    · simp [List.filter_cons, List.find?_cons, h]
    · simp [List.filter_cons, List.find?_cons, h, ih]

theorem Registry.find_key {W E P : Type} {reg : Registry W E P} {name : String}
    {e : String × Creator W E P} (h : reg.find name = some e) : e.1 = name := by
  unfold Registry.find at h
  simpa using List.find?_some h

theorem Registry.find_emplace_self {W E P : Type} (reg : Registry W E P) (name : String)
    (creator : Creator W E P) (h : reg.find name = none) :
    (reg.emplace name creator).find name = some (name, creator) := by
  have hc : reg.count name = 0 := (reg.count_eq_zero_iff name).2 h
  unfold Registry.find at h
  simp [Registry.emplace, hc, Registry.find, List.find?_append, h]

theorem Registry.find_emplace_of_ne {W E P : Type} (reg : Registry W E P) (name other : String)
    (creator : Creator W E P) (h : name ≠ other) :
    (reg.emplace name creator).find other = reg.find other := by
  unfold Registry.emplace
  split
  · rfl
  · simp [Registry.find, List.find?_append, h]

theorem Registry.find_emplace_of_some {W E P : Type} (reg : Registry W E P) (name other : String)
    (creator : Creator W E P) (e : String × Creator W E P) (h : reg.find other = some e) :
    (reg.emplace name creator).find other = some e := by
  unfold Registry.emplace
  split
  · exact h
  · unfold Registry.find at h ⊢
    simp [List.find?_append, h]


theorem Registry.not_mem_keys_iff {W E P : Type} (reg : Registry W E P) (name : String) :
    name ∉ reg.keys ↔ reg.find name = none := by
  unfold Registry.keys Registry.find
  simp only [List.find?_eq_none, List.mem_map, not_exists, not_and]
  constructor
  · intro h e he
    simpa using h e he
  · intro h e he
    simpa using h e he

theorem Registry.mem_keys_iff {W E P : Type} (reg : Registry W E P) (name : String) :
    name ∈ reg.keys ↔ ∃ e, reg.find name = some e := by
  rw [← not_iff_not, Registry.not_mem_keys_iff]
  cases reg.find name <;> simp

theorem Registry.find_eq_key {W E P : Type} {reg : Registry W E P} {name : String}
    {e : String × Creator W E P} (h : reg.find name = some e) : e = (name, e.2) := by
  have hk := Registry.find_key h
  cases e
  simp_all

/-! ## The two member functions on their two paths -/

theorem noexcept_returned {W E α : Type} (a : α) (w : W) :
    noexcept ((Outcome.returned a : Outcome E α), w) = (.returned a, w) := rfl

theorem noexcept_threw {W E α : Type} (e : Exception E) (w : W) :
    noexcept ((Outcome.threw e : Outcome E α), w) = (.terminated, w) := rfl

theorem noexcept_of_returned {W E α : Type} {r : Outcome E α × W} {a : α} {w : W}
    (h : r = (.returned a, w)) : noexcept r = (.returned a, w) := by
  subst h; rfl

theorem registerClass_of_absent {W E P : Type} (name : String) (creator : Creator W E P)
    (reg : Registry W E P) (h : reg.find name = none) :
    registerClass name creator reg = (.returned true, reg.emplace name creator) := by
  have hc : reg.count name = 0 := (reg.count_eq_zero_iff name).2 h
  simp [registerClass, hc]

theorem registerClass_of_present {W E P : Type} (name : String) (creator : Creator W E P)
    (reg : Registry W E P) (e : String × Creator W E P) (h : reg.find name = some e) :
    registerClass name creator reg
      = (.threw (.runtime_error (duplicateMessage name)), reg) := by
  have hc : reg.count name ≠ 0 := by
    intro h0
    rw [(reg.count_eq_zero_iff name).1 h0] at h
    cases h
  simp [registerClass, hc]

theorem create_of_present {W E P : Type} (name : String) (reg : Registry W E P)
    (e : String × Creator W E P) (h : reg.find name = some e) (w : W) :
    create name reg w = noexcept (e.2.invoke w) := by
  simp [create, h]

theorem create_of_absent {W E P : Type} (name : String) (reg : Registry W E P)
    (h : reg.find name = none) (w : W) :
    create name reg w = (.returned none, w) := by
  simp [create, h, noexcept]


/-! ## Duplicate registration -/

/-- C1: when `registerClass(n, f1)` succeeds on `s` and gives `s1`, a second
`registerClass(n, f2)` on `s1` throws the duplicate-registration error and
leaves the map exactly `s1`; `n` is still mapped to `f1`, and `create(n)`
afterwards is the invocation of `f1`: it returns what `f1` returns. -/
theorem registerClass_twice_keeps_first {W E P : Type} (s s1 : Registry W E P) (n : String)
    (f1 f2 : Creator W E P) (h : registerClass n f1 s = (.returned true, s1)) :
    registerClass n f2 s1 = (.threw (.runtime_error (duplicateMessage n)), s1) ∧
    (registerClass n f2 s1).2.find n = some (n, f1) ∧
    (∀ w, create n (registerClass n f2 s1).2 w = noexcept (f1.invoke w)) ∧
    (∀ w p w1, f1.invoke w = (.returned p, w1) →
      create n (registerClass n f2 s1).2 w = (.returned p, w1)) := by
  have habs : s.find n = none := by
    by_contra hne
    obtain ⟨e, he⟩ := Option.ne_none_iff_exists'.1 hne
    rw [registerClass_of_present n f1 s e he] at h
    cases h
  rw [registerClass_of_absent n f1 s habs] at h
  have hs1 : s1 = s.emplace n f1 := by
    have := congrArg Prod.snd h
    exact this.symm
  have hfind : s1.find n = some (n, f1) := by
    rw [hs1]; exact Registry.find_emplace_self s n f1 habs
  have hdup := registerClass_of_present n f2 s1 _ hfind
  refine ⟨hdup, ?_, ?_, ?_⟩
  · rw [hdup]; exact hfind
  · intro w
    rw [hdup]; exact create_of_present n s1 _ hfind w
  · intro w p w1 hinv
    rw [hdup]
    have := create_of_present n s1 _ hfind w
    rw [this]
    exact noexcept_of_returned hinv

/-- C1 at a concrete input: `"print"` registered twice in the empty map, first
with the creator of `PrintCommand`, then with that of `ExitCommand`. -/
theorem registerClass_twice_keeps_first_witness :
    registerClass "print" (makeCreator .PrintCommand) (Registry.instance : Registry Heap Empty Nat)
      = (.returned true, [("print", makeCreator .PrintCommand)]) ∧
    (registerClass "print" (makeCreator .ExitCommand)
        ([("print", makeCreator .PrintCommand)] : Registry Heap Empty Nat)
      = (.threw (.runtime_error (duplicateMessage "print")),
          [("print", makeCreator .PrintCommand)]) ∧
    (registerClass "print" (makeCreator .ExitCommand)
        ([("print", makeCreator .PrintCommand)] : Registry Heap Empty Nat)).2.find "print"
      = some ("print", makeCreator .PrintCommand) ∧
    (∀ w, create "print" (registerClass "print" (makeCreator .ExitCommand)
        ([("print", makeCreator .PrintCommand)] : Registry Heap Empty Nat)).2 w
      = noexcept ((makeCreator .PrintCommand).invoke w)) ∧
    (∀ w p w1, (makeCreator .PrintCommand : Creator Heap Empty Nat).invoke w = (.returned p, w1) →
      create "print" (registerClass "print" (makeCreator .ExitCommand)
        ([("print", makeCreator .PrintCommand)] : Registry Heap Empty Nat)).2 w
      = (.returned p, w1))) :=
  ⟨rfl, registerClass_twice_keeps_first Registry.instance [("print", makeCreator .PrintCommand)]
    "print" (makeCreator .PrintCommand) (makeCreator .ExitCommand) rfl⟩

/-! ## Names that are not registered -/

/-- C2: for a name `n` that is not a key of the map, `create(n)` returns
`nullptr` and leaves the program state as it was; it neither throws nor
terminates. -/
theorem create_unregistered_returns_nullptr {W E P : Type} (s : Registry W E P) (n : String)
    (h : n ∉ s.keys) (w : W) :
    create n s w = (.returned none, w) ∧
    (∀ e, (create n s w).1 ≠ .threw e) ∧
    (create n s w).1 ≠ .terminated := by
  have hc := create_of_absent n s ((s.not_mem_keys_iff n).1 h) w
  rw [hc]
  exact ⟨rfl, fun e => by simp, by simp⟩

/-- C2 at a concrete input: `"quit"` in the example, where only `"print"` and
`"exit"` are registered. -/
theorem create_unregistered_returns_nullptr_witness :
    exampleRegistry.keys = ["print", "exit"] ∧ "quit" ∉ exampleRegistry.keys ∧
    (create "quit" exampleRegistry [] = (.returned none, []) ∧
    (∀ e, (create "quit" exampleRegistry []).1 ≠ .threw e) ∧
    (create "quit" exampleRegistry []).1 ≠ .terminated) :=
  ⟨by decide, by decide,
    create_unregistered_returns_nullptr exampleRegistry "quit" (by decide) []⟩


/-! ## Two distinct names -/

/-- C3: for names `n1 ≠ n2` that are not keys of `s`, `registerClass(n1, f1)`
followed by `registerClass(n2, f2)` both return `true`, and afterwards
`create(n1)` is the invocation of `f1` and `create(n2)` the invocation of `f2`:
each returns the instance its own creator produces. -/
theorem registerClass_two_names {W E P : Type} (s : Registry W E P) (n1 n2 : String)
    (f1 f2 : Creator W E P) (h1 : n1 ∉ s.keys) (h2 : n2 ∉ s.keys) (hne : n1 ≠ n2) :
    (registerClass n1 f1 s).1 = .returned true ∧
    (registerClass n2 f2 (registerClass n1 f1 s).2).1 = .returned true ∧
    (∀ w, create n1 (registerClass n2 f2 (registerClass n1 f1 s).2).2 w
      = noexcept (f1.invoke w)) ∧
    (∀ w, create n2 (registerClass n2 f2 (registerClass n1 f1 s).2).2 w
      = noexcept (f2.invoke w)) ∧
    (∀ w p w1, f1.invoke w = (.returned p, w1) →
      create n1 (registerClass n2 f2 (registerClass n1 f1 s).2).2 w = (.returned p, w1)) ∧
    (∀ w p w1, f2.invoke w = (.returned p, w1) →
      create n2 (registerClass n2 f2 (registerClass n1 f1 s).2).2 w = (.returned p, w1)) := by
  have a1 : s.find n1 = none := (s.not_mem_keys_iff n1).1 h1
  have a2 : s.find n2 = none := (s.not_mem_keys_iff n2).1 h2
  have r1 := registerClass_of_absent n1 f1 s a1
  have a2' : (s.emplace n1 f1).find n2 = none := by
    rw [Registry.find_emplace_of_ne s n1 n2 f1 hne]; exact a2
  have r2 := registerClass_of_absent n2 f2 (s.emplace n1 f1) a2'
  have g1 : ((s.emplace n1 f1).emplace n2 f2).find n1 = some (n1, f1) :=
    Registry.find_emplace_of_some _ n2 n1 f2 _ (Registry.find_emplace_self s n1 f1 a1)
  have g2 : ((s.emplace n1 f1).emplace n2 f2).find n2 = some (n2, f2) :=
    Registry.find_emplace_self _ n2 f2 a2'
  rw [r1, r2]
  refine ⟨rfl, rfl, ?_, ?_, ?_, ?_⟩
  · intro w; exact create_of_present n1 _ _ g1 w
  · intro w; exact create_of_present n2 _ _ g2 w
  · intro w p w1 hinv
    rw [create_of_present n1 _ _ g1 w]; exact noexcept_of_returned hinv
  · intro w p w1 hinv
    rw [create_of_present n2 _ _ g2 w]; exact noexcept_of_returned hinv

/-- C3 at the input of `example.cpp`: from the empty map, `"print"` is
registered for `PrintCommand` and `"exit"` for `ExitCommand`; the pointer
`create("print")` returns owns a `PrintCommand`, the one of `create("exit")`
an `ExitCommand`. -/
theorem registerClass_two_names_witness :
    ("print" ∉ (Registry.instance : Registry Heap Empty Nat).keys ∧
     "exit" ∉ (Registry.instance : Registry Heap Empty Nat).keys ∧ "print" ≠ "exit") ∧
    ((registerClass "print" (makeCreator .PrintCommand)
        (Registry.instance : Registry Heap Empty Nat)).1 = .returned true ∧
     (registerClass "exit" (makeCreator .ExitCommand)
        (registerClass "print" (makeCreator .PrintCommand)
          (Registry.instance : Registry Heap Empty Nat)).2).1 = .returned true ∧
     (∀ w, create "print" (registerClass "exit" (makeCreator .ExitCommand)
        (registerClass "print" (makeCreator .PrintCommand)
          (Registry.instance : Registry Heap Empty Nat)).2).2 w
        = noexcept ((makeCreator .PrintCommand).invoke w)) ∧
     (∀ w, create "exit" (registerClass "exit" (makeCreator .ExitCommand)
        (registerClass "print" (makeCreator .PrintCommand)
          (Registry.instance : Registry Heap Empty Nat)).2).2 w
        = noexcept ((makeCreator .ExitCommand).invoke w)) ∧
     (∀ w p w1, (makeCreator .PrintCommand : Creator Heap Empty Nat).invoke w = (.returned p, w1) →
        create "print" (registerClass "exit" (makeCreator .ExitCommand)
          (registerClass "print" (makeCreator .PrintCommand)
            (Registry.instance : Registry Heap Empty Nat)).2).2 w = (.returned p, w1)) ∧
     (∀ w p w1, (makeCreator .ExitCommand : Creator Heap Empty Nat).invoke w = (.returned p, w1) →
        create "exit" (registerClass "exit" (makeCreator .ExitCommand)
          (registerClass "print" (makeCreator .PrintCommand)
            (Registry.instance : Registry Heap Empty Nat)).2).2 w = (.returned p, w1))) ∧
    (create "print" exampleRegistry [] = (.returned (some 0), [.PrintCommand]) ∧
     create "exit" exampleRegistry [] = (.returned (some 0), [.ExitCommand]) ∧
     create "quit" exampleRegistry [] = (.returned none, [])) :=
  ⟨⟨by decide, by decide, by decide⟩,
    registerClass_two_names Registry.instance "print" "exit" (makeCreator .PrintCommand)
      (makeCreator .ExitCommand) (by decide) (by decide) (by decide),
    by decide, by decide, by decide⟩

/-! ## The outcome of a registration -/

/-- C4: `registerClass(n, f)` throws the duplicate-registration error if and only
if `n` is already a key of the map, and then the map is unchanged; otherwise it
returns `true` and the resulting map maps `n` to `f`.  It never returns `false`. -/
theorem registerClass_throws_iff_duplicate {W E P : Type} (s : Registry W E P) (n : String)
    (f : Creator W E P) :
    ((registerClass n f s).1 = .threw (.runtime_error (duplicateMessage n)) ↔ n ∈ s.keys) ∧
    ((∃ e, (registerClass n f s).1 = .threw e) ↔ n ∈ s.keys) ∧
    (n ∈ s.keys → (registerClass n f s).2 = s) ∧
    (n ∉ s.keys → (registerClass n f s).1 = .returned true ∧
      (registerClass n f s).2.find n = some (n, f)) ∧
    (registerClass n f s).1 ≠ .returned false := by
  by_cases hk : n ∈ s.keys
  · obtain ⟨e, he⟩ := (s.mem_keys_iff n).1 hk
    rw [registerClass_of_present n f s e he]
    simp [hk]
  · have ha : s.find n = none := (s.not_mem_keys_iff n).1 hk
    rw [registerClass_of_absent n f s ha]
    simp [hk, Registry.find_emplace_self s n f ha]


/-! ## A creator that fails -/

/-- C5, refuted as stated: `"boom"` is registered with a creator whose
invocation throws; `create("boom")` does not fail with that exception, the
process terminates. -/
theorem create_propagates_failure_counterexample :
    (registerClass "boom"
        (Creator.callable (fun w => (Outcome.threw (Exception.other "constructor failed"), w)))
        (Registry.instance : Registry Unit String Nat)).2.find "boom"
      = some ("boom",
          Creator.callable (fun w => (Outcome.threw (Exception.other "constructor failed"), w))) ∧
    (Creator.callable (fun w => (Outcome.threw (Exception.other "constructor failed"), w)) :
        Creator Unit String Nat).invoke ()
      = (.threw (.other "constructor failed"), ()) ∧
    create "boom"
        (registerClass "boom"
          (Creator.callable (fun w => (Outcome.threw (Exception.other "constructor failed"), w)))
          (Registry.instance : Registry Unit String Nat)).2 ()
      ≠ (.threw (.other "constructor failed"), ()) ∧
    create "boom"
        (registerClass "boom"
          (Creator.callable (fun w => (Outcome.threw (Exception.other "constructor failed"), w)))
          (Registry.instance : Registry Unit String Nat)).2 ()
      = (.terminated, ()) := by
  refine ⟨rfl, rfl, ?_, rfl⟩
  decide

/-- C5, amended: when the creator registered for `n` fails with `e`, `create(n)`
neither returns (so the failure is not swallowed and not turned into `nullptr`)
nor lets `e` or any other exception reach the caller: `create` is `noexcept`,
the process terminates. -/
theorem create_failure_terminates {W E P : Type} (s : Registry W E P) (n : String)
    (f : Creator W E P) (e : Exception E) (w w1 : W)
    (hreg : s.find n = some (n, f)) (hfail : f.invoke w = (.threw e, w1)) :
    create n s w = (.terminated, w1) ∧
    (∀ p w2, create n s w ≠ (.returned p, w2)) ∧
    (∀ e2 w2, create n s w ≠ (.threw e2, w2)) := by
  have hc : create n s w = (.terminated, w1) := by
    rw [create_of_present n s _ hreg w]
    show noexcept (f.invoke w) = _
    rw [hfail]; rfl
  rw [hc]
  exact ⟨rfl, fun p w2 => by simp, fun e2 w2 => by simp⟩

/-- C5, amended, at a concrete input: `"boom"` is registered with a creator
whose constructor throws. -/
theorem create_failure_terminates_witness :
    (registerClass "boom"
          (Creator.callable (fun w => (Outcome.threw (Exception.other "constructor failed"), w)))
          (Registry.instance : Registry Unit String Nat)).2.find "boom"
      = some ("boom",
          Creator.callable (fun w => (Outcome.threw (Exception.other "constructor failed"), w))) ∧
    (Creator.callable (fun w => (Outcome.threw (Exception.other "constructor failed"), w)) :
        Creator Unit String Nat).invoke ()
      = (.threw (.other "constructor failed"), ()) ∧
    (create "boom"
        (registerClass "boom"
          (Creator.callable (fun w => (Outcome.threw (Exception.other "constructor failed"), w)))
          (Registry.instance : Registry Unit String Nat)).2 ()
        = (.terminated, ()) ∧
     (∀ p w2, create "boom"
        (registerClass "boom"
          (Creator.callable (fun w => (Outcome.threw (Exception.other "constructor failed"), w)))
          (Registry.instance : Registry Unit String Nat)).2 ()
        ≠ (.returned p, w2)) ∧
     (∀ e2 w2, create "boom"
        (registerClass "boom"
          (Creator.callable (fun w => (Outcome.threw (Exception.other "constructor failed"), w)))
          (Registry.instance : Registry Unit String Nat)).2 ()
        ≠ (.threw e2, w2))) :=
  ⟨rfl, rfl, create_failure_terminates
    (registerClass "boom"
          (Creator.callable (fun w => (Outcome.threw (Exception.other "constructor failed"), w)))
          (Registry.instance : Registry Unit String Nat)).2
    "boom" (Creator.callable (fun w => (Outcome.threw (Exception.other "constructor failed"), w)))
    (.other "constructor failed") () () rfl rfl⟩


/-! ## One invocation per call -/

theorem noexcept_snd {W E α : Type} (r : Outcome E α × W) : (noexcept r).2 = r.2 := by
  rcases r with ⟨o, w⟩
  cases o <;> rfl

theorem makeLambda_fresh {E : Type} (TYPE : Command) :
    (Creator.callable (makeLambda TYPE) : Creator Heap E Nat).Fresh Heap.live := by
  intro h
  refine ⟨h.length, h ++ [TYPE], rfl, ?_, ?_⟩
  · simp [Heap.live]
  · simp [Heap.live]

/-- C6: with `n` registered for a callable `f` that counts its invocations,
each `create(n)` raises the count by exactly one and returns the result of that
one invocation; when `f` produces a fresh object at every invocation, two calls
of `create(n)` return two distinct instances. -/
theorem create_invokes_once {W E P : Type} (s : Registry (W × Nat) E P) (n : String)
    (f : W → Outcome E (Option P) × W) (live : W → P → Prop)
    (hreg : s.find n = some (n, counting f)) :
    (∀ w k, create n s (w, k) = noexcept ((f w).1, ((f w).2, k + 1))) ∧
    (∀ w k, (create n s (w, k)).2.2 = k + 1) ∧
    ((Creator.callable f).Fresh live → ∀ w k, ∃ p1 w1 p2 w2,
      create n s (w, k) = (.returned (some p1), (w1, k + 1)) ∧
      create n s (w1, k + 1) = (.returned (some p2), (w2, k + 2)) ∧
      p1 ≠ p2) := by
  have hc : ∀ w k, create n s (w, k) = noexcept ((f w).1, ((f w).2, k + 1)) := by
    intro w k
    rw [create_of_present n s _ hreg (w, k)]
    rfl
  refine ⟨hc, ?_, ?_⟩
  · intro w k
    rw [hc, noexcept_snd]
  · intro hfresh w k
    obtain ⟨p1, w1, h1, _, hl1⟩ := hfresh w
    obtain ⟨p2, w2, h2, hn2, _⟩ := hfresh w1
    have e1 : f w = (.returned (some p1), w1) := h1
    have e2 : f w1 = (.returned (some p2), w2) := h2
    refine ⟨p1, w1, p2, w2, ?_, ?_, ?_⟩
    · rw [hc, e1]; rfl
    · rw [hc, e2]; rfl
    · intro hp
      exact hn2 (hp ▸ hl1)

/-- C6 at a concrete input: `"print"` registered for the counting lambda of
`PrintCommand`; two calls of `create("print")` on the empty free store return
the distinct addresses 0 and 1, after one and two invocations. -/
theorem create_invokes_once_witness :
    (registerClass "print" (counting (makeLambda .PrintCommand))
        (Registry.instance : Registry (Heap × Nat) Empty Nat)).2.find "print"
      = some ("print", counting (makeLambda .PrintCommand)) ∧
    (Creator.callable (makeLambda .PrintCommand) : Creator Heap Empty Nat).Fresh Heap.live ∧
    ((∀ w k, create "print" (registerClass "print" (counting (makeLambda .PrintCommand))
          (Registry.instance : Registry (Heap × Nat) Empty Nat)).2 (w, k)
        = noexcept ((@makeLambda Empty .PrintCommand w).1,
            ((@makeLambda Empty .PrintCommand w).2, k + 1))) ∧
     (∀ w k, (create "print" (registerClass "print" (counting (makeLambda .PrintCommand))
          (Registry.instance : Registry (Heap × Nat) Empty Nat)).2 (w, k)).2.2 = k + 1) ∧
     ((Creator.callable (makeLambda .PrintCommand) : Creator Heap Empty Nat).Fresh Heap.live →
        ∀ w k, ∃ p1 w1 p2 w2,
          create "print" (registerClass "print" (counting (makeLambda .PrintCommand))
            (Registry.instance : Registry (Heap × Nat) Empty Nat)).2 (w, k)
            = (.returned (some p1), (w1, k + 1)) ∧
          create "print" (registerClass "print" (counting (makeLambda .PrintCommand))
            (Registry.instance : Registry (Heap × Nat) Empty Nat)).2 (w1, k + 1)
            = (.returned (some p2), (w2, k + 2)) ∧
          p1 ≠ p2)) ∧
    create "print" (registerClass "print" (counting (makeLambda .PrintCommand))
        (Registry.instance : Registry (Heap × Nat) Empty Nat)).2 ([], 0)
      = (.returned (some 0), ([.PrintCommand], 1)) ∧
    create "print" (registerClass "print" (counting (makeLambda .PrintCommand))
        (Registry.instance : Registry (Heap × Nat) Empty Nat)).2 ([.PrintCommand], 1)
      = (.returned (some 1), ([.PrintCommand, .PrintCommand], 2)) :=
  ⟨rfl, makeLambda_fresh .PrintCommand,
    create_invokes_once
      (registerClass "print" (counting (makeLambda .PrintCommand))
        (Registry.instance : Registry (Heap × Nat) Empty Nat)).2
      "print" (makeLambda .PrintCommand) Heap.live rfl,
    by decide, by decide⟩

/-! ## Independence of the instantiations -/

/-- C7: for distinct interface types `A` and `B`, `registerClass` on
`RegistryFactory<A>` leaves the map of `RegistryFactory<B>` unchanged; when `x`
is not registered for `B`, `create(x)` against `B` still returns `nullptr`
after `x` is registered for `A`.  The same holds with `A` and `B` swapped. -/
theorem statics_independent {W E ι : Type} {P : ι → Type} [DecidableEq ι] (A B : ι)
    (hAB : A ≠ B) (x : String) (fA : Creator W E (P A)) (fB : Creator W E (P B))
    (g : Statics W E P) :
    ((registerClassFor A x fA g).2 B = g B ∧
     (x ∉ (g B).keys → ∀ w, createFor B x (registerClassFor A x fA g).2 w = (.returned none, w))) ∧
    ((registerClassFor B x fB g).2 A = g A ∧
     (x ∉ (g A).keys →
        ∀ w, createFor A x (registerClassFor B x fB g).2 w = (.returned none, w))) := by
  have hB : (registerClassFor A x fA g).2 B = g B := by
    simp [registerClassFor, Function.update_noteq (Ne.symm hAB)]
  have hA : (registerClassFor B x fB g).2 A = g A := by
    simp [registerClassFor, Function.update_noteq hAB]
  refine ⟨⟨hB, ?_⟩, ⟨hA, ?_⟩⟩
  · intro hx w
    unfold createFor
    rw [hB]
    exact create_of_absent x (g B) (((g B).not_mem_keys_iff x).1 hx) w
  · intro hx w
    unfold createFor
    rw [hA]
    exact create_of_absent x (g A) (((g A).not_mem_keys_iff x).1 hx) w


/-- C7 at a concrete input: two instantiations, indexed by `true` and `false`,
both with empty maps; `"x"` is registered for one of them only. -/
theorem statics_independent_witness :
    true ≠ false ∧
    (((registerClassFor true "x" (makeCreator .PrintCommand)
          (Statics.initial : @Statics Heap Empty Bool (fun _ => Nat))).2 false
        = (Statics.initial : @Statics Heap Empty Bool (fun _ => Nat)) false ∧
      ("x" ∉ ((Statics.initial : @Statics Heap Empty Bool (fun _ => Nat)) false).keys →
        ∀ w, createFor false "x" (registerClassFor true "x" (makeCreator .PrintCommand)
          (Statics.initial : @Statics Heap Empty Bool (fun _ => Nat))).2 w
          = (.returned none, w))) ∧
     ((registerClassFor false "x" (makeCreator .ExitCommand)
          (Statics.initial : @Statics Heap Empty Bool (fun _ => Nat))).2 true
        = (Statics.initial : @Statics Heap Empty Bool (fun _ => Nat)) true ∧
      ("x" ∉ ((Statics.initial : @Statics Heap Empty Bool (fun _ => Nat)) true).keys →
        ∀ w, createFor true "x" (registerClassFor false "x" (makeCreator .ExitCommand)
          (Statics.initial : @Statics Heap Empty Bool (fun _ => Nat))).2 w
          = (.returned none, w)))) ∧
    createFor true "x" (registerClassFor true "x" (makeCreator .PrintCommand)
        (Statics.initial : @Statics Heap Empty Bool (fun _ => Nat))).2 []
      = (.returned (some 0), [.PrintCommand]) ∧
    createFor false "x" (registerClassFor true "x" (makeCreator .PrintCommand)
        (Statics.initial : @Statics Heap Empty Bool (fun _ => Nat))).2 []
      = (.returned none, []) :=
  ⟨by decide,
    @statics_independent Heap Empty Bool (fun _ => Nat) _ true false (by decide) "x"
      (makeCreator .PrintCommand) (makeCreator .ExitCommand) Statics.initial,
    by decide, by decide⟩

/-! ## What one registration does to the other entries -/

theorem registerClass_find_of_ne {W E P : Type} (name other : String) (creator : Creator W E P)
    (reg : Registry W E P) (h : name ≠ other) :
    (registerClass name creator reg).2.find other = reg.find other := by
  unfold registerClass
  split
  · rfl
  · exact Registry.find_emplace_of_ne reg name other creator h

theorem registerClass_find_of_some {W E P : Type} (name other : String) (creator : Creator W E P)
    (reg : Registry W E P) (e : String × Creator W E P) (h : reg.find other = some e) :
    (registerClass name creator reg).2.find other = some e := by
  unfold registerClass
  split
  · exact h
  · exact Registry.find_emplace_of_some reg name other creator e h

theorem noexcept_eq_returned_iff {W E α : Type} (r : Outcome E α × W) (a : α) (w : W) :
    noexcept r = (.returned a, w) ↔ r = (.returned a, w) := by
  rcases r with ⟨o, w0⟩
  cases o <;> simp [noexcept]

theorem registerAll_cons {W E P : Type} (c : String × Creator W E P)
    (cs : List (String × Creator W E P)) (reg : Registry W E P) :
    registerAll (c :: cs) reg = registerAll cs (registerClass c.1 c.2 reg).2 := rfl

theorem registerAll_find_of_some {W E P : Type} (calls : List (String × Creator W E P))
    (reg : Registry W E P) (n : String) (e : String × Creator W E P)
    (h : reg.find n = some e) : (registerAll calls reg).find n = some e := by
  induction calls generalizing reg with
  | nil => exact h
  | cons c cs ih =>
    rw [registerAll_cons]
    exact ih _ (registerClass_find_of_some c.1 n c.2 reg e h)

theorem registerAll_find_of_none {W E P : Type} (calls : List (String × Creator W E P))
    (reg : Registry W E P) (n : String) (h : reg.find n = none) :
    (registerAll calls reg).find n = List.find? (fun c => c.1 == n) calls := by
  induction calls generalizing reg with
  | nil => simpa [registerAll] using h
  | cons c cs ih =>
    rw [registerAll_cons]
    by_cases hc : c.1 = n
    · have hreg : (registerClass c.1 c.2 reg).2.find n = some c := by
        subst hc
        rw [registerClass_of_absent c.1 c.2 reg h]
        exact Registry.find_emplace_self reg c.1 c.2 h
      rw [registerAll_find_of_some cs _ n c hreg]
      simp [List.find?_cons, hc]
    · have hreg : (registerClass c.1 c.2 reg).2.find n = none := by
        rw [registerClass_find_of_ne c.1 n c.2 reg hc]; exact h
      rw [ih _ hreg]
      simp [List.find?_cons, hc]

/-- C8, refuted as stated: after registering `"null"` with a creator that
returns `nullptr` and `"boom"` with a creator that throws, both names occur in
the sequence, yet `create` returns a present result for neither. -/
theorem registered_names_present_counterexample :
    "null" ∈ (([("null", (Creator.callable (fun w => (Outcome.returned none, w)))),
        ("boom", (Creator.callable (fun w => (Outcome.threw (Exception.other "constructor failed"), w))))] :
        List (String × Creator Unit String Nat))).map Prod.fst ∧
    "boom" ∈ (([("null", (Creator.callable (fun w => (Outcome.returned none, w)))),
        ("boom", (Creator.callable (fun w => (Outcome.threw (Exception.other "constructor failed"), w))))] :
        List (String × Creator Unit String Nat))).map Prod.fst ∧
    create "null" (registerAll ([("null", (Creator.callable (fun w => (Outcome.returned none, w)))),
        ("boom", (Creator.callable (fun w => (Outcome.threw (Exception.other "constructor failed"), w))))] :
        List (String × Creator Unit String Nat)) Registry.instance) () = (.returned none, ()) ∧
    create "boom" (registerAll ([("null", (Creator.callable (fun w => (Outcome.returned none, w)))),
        ("boom", (Creator.callable (fun w => (Outcome.threw (Exception.other "constructor failed"), w))))] :
        List (String × Creator Unit String Nat)) Registry.instance) () = (.terminated, ()) ∧
    (¬ ∃ p w1, create "null" (registerAll ([("null", (Creator.callable (fun w => (Outcome.returned none, w)))),
        ("boom", (Creator.callable (fun w => (Outcome.threw (Exception.other "constructor failed"), w))))] :
        List (String × Creator Unit String Nat)) Registry.instance) ()
        = (.returned (some p), w1)) ∧
    (¬ ∃ p w1, create "boom" (registerAll ([("null", (Creator.callable (fun w => (Outcome.returned none, w)))),
        ("boom", (Creator.callable (fun w => (Outcome.threw (Exception.other "constructor failed"), w))))] :
        List (String × Creator Unit String Nat)) Registry.instance) ()
        = (.returned (some p), w1)) := by
  refine ⟨by decide, by decide, rfl, rfl, ?_, ?_⟩
  · rintro ⟨p, w1, h⟩
    have h2 : create "null" (registerAll ([("null", (Creator.callable (fun w => (Outcome.returned none, w)))),
        ("boom", (Creator.callable (fun w => (Outcome.threw (Exception.other "constructor failed"), w))))] :
        List (String × Creator Unit String Nat)) Registry.instance) () = (.returned none, ()) := rfl
    rw [h2] at h
    cases h
  · rintro ⟨p, w1, h⟩
    have h2 : create "boom" (registerAll ([("null", (Creator.callable (fun w => (Outcome.returned none, w)))),
        ("boom", (Creator.callable (fun w => (Outcome.threw (Exception.other "constructor failed"), w))))] :
        List (String × Creator Unit String Nat)) Registry.instance) () = (.terminated, ()) := rfl
    rw [h2] at h
    cases h

/-- C8, amended: after any sequence of `registerClass` calls from the empty map
(a throwing call leaving the map unchanged), the keys of the map are exactly the
names occurring in the sequence, and each is mapped to the creator of its first
occurrence; `create(n)` is the invocation of that creator, so it returns a
present result exactly when `n` occurs and the creator of its first occurrence
returns one; on the empty map `create(n)` returns `nullptr` for every `n`. -/
theorem registerAll_first_occurrence {W E P : Type} (calls : List (String × Creator W E P))
    (n : String) :
    (n ∈ (registerAll calls Registry.instance).keys ↔ n ∈ calls.map Prod.fst) ∧
    (registerAll calls Registry.instance).find n = List.find? (fun c => c.1 == n) calls ∧
    (∀ w, create n (registerAll calls Registry.instance) w =
      match List.find? (fun c => c.1 == n) calls with
      | some c => noexcept (c.2.invoke w)
      | none => (.returned none, w)) ∧
    (∀ w p w1, create n (registerAll calls Registry.instance) w = (.returned (some p), w1) ↔
      ∃ c, List.find? (fun c => c.1 == n) calls = some c ∧
        c.2.invoke w = (.returned (some p), w1)) ∧
    (∀ w, create n (Registry.instance : Registry W E P) w = (.returned none, w)) := by
  have hfind : (registerAll calls Registry.instance).find n
      = List.find? (fun c => c.1 == n) calls :=
    registerAll_find_of_none calls Registry.instance n rfl
  have hcreate : ∀ w, create n (registerAll calls Registry.instance) w =
      match List.find? (fun c => c.1 == n) calls with
      | some c => noexcept (c.2.invoke w)
      | none => (.returned none, w) := by
    intro w
    cases hc : List.find? (fun c => c.1 == n) calls with
    | none => exact create_of_absent n _ (hfind.trans hc) w
    | some c => exact create_of_present n _ c (hfind.trans hc) w
  refine ⟨?_, hfind, hcreate, ?_, fun w => create_of_absent n Registry.instance rfl w⟩
  · rw [Registry.mem_keys_iff, hfind]
    constructor
    · rintro ⟨e, he⟩
      have hm := List.mem_of_find?_eq_some he
      have hk : e.1 = n := by simpa using List.find?_some he
      exact List.mem_map.2 ⟨e, hm, hk⟩
    · intro hn
      obtain ⟨e, hm, hk⟩ := List.mem_map.1 hn
      cases hc : List.find? (fun c => c.1 == n) calls with
      | some c => exact ⟨c, rfl⟩
      | none =>
        have := List.find?_eq_none.1 hc e hm
        simp [hk] at this
  · intro w p w1
    rw [hcreate w]
    cases hc : List.find? (fun c => c.1 == n) calls with
    | none => simp
    | some c => simp [noexcept_eq_returned_iff]


/-! ## At most one entry per name -/

theorem run_cons_terminated {W E P : Type} (c : Call W E P) (cs : List (Call W E P))
    (s : Process W E P) (h : (exec c s).1.isTerminated = true) :
    run (c :: cs) s = ([(exec c s).1], (exec c s).2) := by
  simp [run, h]

theorem run_cons_running {W E P : Type} (c : Call W E P) (cs : List (Call W E P))
    (s : Process W E P) (h : (exec c s).1.isTerminated = false) :
    run (c :: cs) s = ((exec c s).1 :: (run cs (exec c s).2).1, (run cs (exec c s).2).2) := by
  simp [run, h]

theorem makeCreator_invoke {E : Type} (TYPE : Command) (h : Heap) :
    (makeCreator TYPE : Creator Heap E Nat).invoke h
      = (.returned (some h.length), h ++ [TYPE]) := rfl

/-- C11: the macro `TSUKINO_REGISTER_CLASS(KEY, TYPE, BASE)` acts on the map of
`RegistryFactory<BASE>` exactly as `registerClass(KEY, c)` with `c` the lambda
returning `std::make_unique<TYPE>()`.  On a map without `KEY` it returns `true`
and `create(KEY)` afterwards returns a pointer to a newly allocated object of
class `TYPE`; on a map that has `KEY` it throws the duplicate-registration
error and changes nothing, as does a second macro with the same key. -/
theorem macro_registers_make_unique {E : Type} (KEY : String) (TYPE TYPE2 : Command)
    (reg : Registry Heap E Nat) :
    TSUKINO_REGISTER_CLASS KEY TYPE reg = registerClass KEY (makeCreator TYPE) reg ∧
    (KEY ∉ reg.keys →
      (TSUKINO_REGISTER_CLASS KEY TYPE reg).1 = .returned true ∧
      (∀ h, create KEY (TSUKINO_REGISTER_CLASS KEY TYPE reg).2 h
          = (.returned (some h.length), h ++ [TYPE]) ∧
        ¬ Heap.live h h.length ∧
        (h ++ [TYPE])[h.length]? = some TYPE) ∧
      TSUKINO_REGISTER_CLASS KEY TYPE2 (TSUKINO_REGISTER_CLASS KEY TYPE reg).2
        = (.threw (.runtime_error (duplicateMessage KEY)),
            (TSUKINO_REGISTER_CLASS KEY TYPE reg).2)) ∧
    (KEY ∈ reg.keys →
      TSUKINO_REGISTER_CLASS KEY TYPE reg
        = (.threw (.runtime_error (duplicateMessage KEY)), reg)) := by
  refine ⟨rfl, ?_, ?_⟩
  · intro hk
    have ha : reg.find KEY = none := (reg.not_mem_keys_iff KEY).1 hk
    have hr : TSUKINO_REGISTER_CLASS KEY TYPE reg
        = (.returned true, reg.emplace KEY (makeCreator TYPE)) :=
      registerClass_of_absent KEY (makeCreator TYPE) reg ha
    have hf : (reg.emplace KEY (makeCreator TYPE)).find KEY = some (KEY, makeCreator TYPE) :=
      Registry.find_emplace_self reg KEY (makeCreator TYPE) ha
    rw [hr]
    refine ⟨rfl, ?_, ?_⟩
    · intro h
      refine ⟨?_, ?_, ?_⟩
      · rw [create_of_present KEY _ _ hf h]
        show noexcept ((makeCreator TYPE : Creator Heap E Nat).invoke h) = _
        rw [makeCreator_invoke]
        rfl
      · simp [Heap.live]
      · simp
    · exact registerClass_of_present KEY (makeCreator TYPE2) _ _ hf
  · intro hk
    obtain ⟨e, he⟩ := (reg.mem_keys_iff KEY).1 hk
    exact registerClass_of_present KEY (makeCreator TYPE) reg e he

/-! ## The message of the duplicate-registration error -/

theorem duplicateMessage_data (name : String) :
    (duplicateMessage name).data
      = "RegistryFactory: Duplicate registration for key: ".data ++ name.data := by
  simp [duplicateMessage]

theorem duplicateMessage_injective (n1 n2 : String)
    (h : duplicateMessage n1 = duplicateMessage n2) : n1 = n2 := by
  have hd := congrArg String.data h
  rw [duplicateMessage_data, duplicateMessage_data] at hd
  exact String.ext (List.append_cancel_left hd)

theorem what_of_no_nul (message : String) (h : Char.ofNat 0 ∉ message.data) :
    what message = message := by
  have ht : message.data.takeWhile (fun c => c != Char.ofNat 0) = message.data := by
    rw [List.takeWhile_eq_self_iff]
    intro x hx
    have hne : x ≠ Char.ofNat 0 := fun hx0 => h (hx0 ▸ hx)
    simpa using hne
  unfold what
  rw [ht]

theorem duplicateMessage_no_nul (name : String) (h : Char.ofNat 0 ∉ name.data) :
    Char.ofNat 0 ∉ (duplicateMessage name).data := by
  rw [duplicateMessage_data, List.mem_append]
  rintro (hp | hn)
  · revert hp; decide
  · exact h hn

/-- C12, refuted as stated: for the names `a<NUL>b` and `a<NUL>c`, both
registered, the duplicate errors carry the same message `what()`, which ends
at the NUL; neither name is a suffix of it, and it is not the literal followed
by the name. -/
theorem duplicate_error_names_key_counterexample :
    String.mk ['a', Char.ofNat 0, 'b'] ≠ String.mk ['a', Char.ofNat 0, 'c'] ∧
    (registerClass (String.mk ['a', Char.ofNat 0, 'b']) Creator.empty
        (registerAll [(String.mk ['a', Char.ofNat 0, 'b'], Creator.empty),
            (String.mk ['a', Char.ofNat 0, 'c'], Creator.empty)]
          (Registry.instance : Registry Unit Empty Nat))).1
      = .threw (.runtime_error (duplicateMessage (String.mk ['a', Char.ofNat 0, 'b']))) ∧
    (registerClass (String.mk ['a', Char.ofNat 0, 'c']) Creator.empty
        (registerAll [(String.mk ['a', Char.ofNat 0, 'b'], Creator.empty),
            (String.mk ['a', Char.ofNat 0, 'c'], Creator.empty)]
          (Registry.instance : Registry Unit Empty Nat))).1
      = .threw (.runtime_error (duplicateMessage (String.mk ['a', Char.ofNat 0, 'c']))) ∧
    what (duplicateMessage (String.mk ['a', Char.ofNat 0, 'b']))
      = "RegistryFactory: Duplicate registration for key: a" ∧
    what (duplicateMessage (String.mk ['a', Char.ofNat 0, 'b']))
      = what (duplicateMessage (String.mk ['a', Char.ofNat 0, 'c'])) ∧
    what (duplicateMessage (String.mk ['a', Char.ofNat 0, 'b']))
      ≠ "RegistryFactory: Duplicate registration for key: "
          ++ String.mk ['a', Char.ofNat 0, 'b'] ∧
    ¬ (String.mk ['a', Char.ofNat 0, 'b']).data
        <:+ (what (duplicateMessage (String.mk ['a', Char.ofNat 0, 'b']))).data := by
  refine ⟨by decide, rfl, rfl, by decide, by decide, by decide, by decide⟩

/-- C12, amended: for a name `n` without a NUL character, the error thrown by a
duplicate `registerClass(n, f)` carries as message `what()` the literal
`"RegistryFactory: Duplicate registration for key: "` followed by `n`; `n` is a
suffix of the message, and duplicate errors for different such names carry
different messages. -/
theorem duplicate_error_what_names_key {W E P : Type} (s : Registry W E P) (n : String)
    (f : Creator W E P) (h : n ∈ s.keys) (hn : Char.ofNat 0 ∉ n.data) :
    (registerClass n f s).1
      = .threw (.runtime_error ("RegistryFactory: Duplicate registration for key: " ++ n)) ∧
    what ("RegistryFactory: Duplicate registration for key: " ++ n)
      = "RegistryFactory: Duplicate registration for key: " ++ n ∧
    n.data <:+ (what ("RegistryFactory: Duplicate registration for key: " ++ n)).data ∧
    (∀ (s2 : Registry W E P) (n2 : String) (f2 : Creator W E P), n2 ∈ s2.keys →
      Char.ofNat 0 ∉ n2.data → n ≠ n2 →
      ∀ m1 m2, (registerClass n f s).1 = .threw (.runtime_error m1) →
        (registerClass n2 f2 s2).1 = .threw (.runtime_error m2) → what m1 ≠ what m2) := by
  obtain ⟨e, he⟩ := (s.mem_keys_iff n).1 h
  have hr := registerClass_of_present n f s e he
  have hw : what (duplicateMessage n) = duplicateMessage n :=
    what_of_no_nul _ (duplicateMessage_no_nul n hn)
  refine ⟨?_, hw, ?_, ?_⟩
  · rw [hr]; rfl
  · show n.data <:+ (what (duplicateMessage n)).data
    rw [hw, duplicateMessage_data]
    exact List.suffix_append _ _
  · intro s2 n2 f2 h2 hn2 hne m1 m2 e1 e2
    obtain ⟨e', he'⟩ := (s2.mem_keys_iff n2).1 h2
    rw [hr] at e1
    rw [registerClass_of_present n2 f2 s2 e' he'] at e2
    simp only [Outcome.threw.injEq, Exception.runtime_error.injEq] at e1 e2
    rw [← e1, ← e2, hw, what_of_no_nul _ (duplicateMessage_no_nul n2 hn2)]
    exact fun hm => hne (duplicateMessage_injective n n2 hm)

/-- C12, amended, at a concrete input: `"print"` registered again in the map of
the example. -/
theorem duplicate_error_what_names_key_witness :
    "print" ∈ exampleRegistry.keys ∧ Char.ofNat 0 ∉ "print".data ∧
    ((registerClass "print" (makeCreator .ExitCommand) exampleRegistry).1
      = .threw (.runtime_error ("RegistryFactory: Duplicate registration for key: " ++ "print")) ∧
     what ("RegistryFactory: Duplicate registration for key: " ++ "print")
      = "RegistryFactory: Duplicate registration for key: " ++ "print" ∧
     "print".data
      <:+ (what ("RegistryFactory: Duplicate registration for key: " ++ "print")).data ∧
     (∀ (s2 : Registry Heap Empty Nat) (n2 : String) (f2 : Creator Heap Empty Nat),
        n2 ∈ s2.keys → Char.ofNat 0 ∉ n2.data → "print" ≠ n2 →
        ∀ m1 m2, (registerClass "print" (makeCreator .ExitCommand) exampleRegistry).1
            = .threw (.runtime_error m1) →
          (registerClass n2 f2 s2).1 = .threw (.runtime_error m2) → what m1 ≠ what m2)) ∧
    what "RegistryFactory: Duplicate registration for key: print"
      = "RegistryFactory: Duplicate registration for key: print" :=
  ⟨by decide, by decide,
    duplicate_error_what_names_key exampleRegistry "print" (makeCreator .ExitCommand)
      (by decide) (by decide),
    by decide⟩

/-! ## The order of registrations -/

theorem registerClass_outcome_of_ne {W E P : Type} (n1 n2 : String) (f1 f2 : Creator W E P)
    (s : Registry W E P) (hne : n1 ≠ n2) :
    (registerClass n2 f2 (registerClass n1 f1 s).2).1 = (registerClass n2 f2 s).1 := by
  have hfind := registerClass_find_of_ne n1 n2 f1 s hne
  cases h2 : s.find n2 with
  | none =>
    rw [h2] at hfind
    rw [registerClass_of_absent n2 f2 _ hfind, registerClass_of_absent n2 f2 s h2]
  | some e =>
    rw [h2] at hfind
    rw [registerClass_of_present n2 f2 _ e hfind, registerClass_of_present n2 f2 s e h2]

theorem create_congr_find {W E P : Type} (name : String) (r1 r2 : Registry W E P)
    (h : r1.find name = r2.find name) (w : W) : create name r1 w = create name r2 w := by
  unfold create
  rw [h]

theorem registerAll_find {W E P : Type} (calls : List (String × Creator W E P))
    (reg : Registry W E P) (n : String) :
    (registerAll calls reg).find n =
      match reg.find n with
      | some e => some e
      | none => List.find? (fun c => c.1 == n) calls := by
  cases h : reg.find n with
  | some e => exact registerAll_find_of_some calls reg n e h
  | none => exact registerAll_find_of_none calls reg n h

theorem find?_key_eq_some_iff {β : Type} (l : List (String × β))
    (hnd : (l.map Prod.fst).Nodup) (n : String) (c : String × β) :
    List.find? (fun e => e.1 == n) l = some c ↔ c ∈ l ∧ c.1 = n := by
  induction l with
  | nil => simp
  | cons e l ih =>
    rw [List.map_cons, List.nodup_cons] at hnd
    by_cases he : e.1 = n
    · simp only [List.find?_cons, he, beq_self_eq_true, Option.some.injEq, List.mem_cons]
      constructor
      · intro hc; subst hc; exact ⟨Or.inl rfl, he⟩
      · rintro ⟨hc | hc, hcn⟩
        · exact hc.symm
        · exact absurd (List.mem_map.2 ⟨c, hc, by rw [hcn, he]⟩) hnd.1
    · have hb : (e.1 == n) = false := by simpa using he
      simp only [List.find?_cons, hb, List.mem_cons]
      rw [ih hnd.2]
      constructor
      · rintro ⟨hc, hcn⟩; exact ⟨Or.inr hc, hcn⟩
      · rintro ⟨hc | hc, hcn⟩
        · subst hc; exact absurd hcn he
        · exact ⟨hc, hcn⟩

theorem find?_key_perm {β : Type} (l1 l2 : List (String × β)) (hp : l1.Perm l2)
    (hnd : (l1.map Prod.fst).Nodup) (n : String) :
    List.find? (fun e => e.1 == n) l1 = List.find? (fun e => e.1 == n) l2 := by
  have hnd2 : (l2.map Prod.fst).Nodup := (hp.map Prod.fst).nodup_iff.1 hnd
  apply Option.ext
  intro c
  rw [Option.mem_def, Option.mem_def, find?_key_eq_some_iff l1 hnd n c,
    find?_key_eq_some_iff l2 hnd2 n c, hp.mem_iff]

/-- C14: for names `n1 ≠ n2`, `registerClass(n1, f1)` then `registerClass(n2, f2)`
and the two calls in the opposite order give each name the same outcome and
give maps on which `find`, and so `create`, agree for every name; more
generally two lists of registrations with pairwise distinct names that are
permutations of each other give such maps. -/
theorem registration_order_irrelevant {W E P : Type} (s : Registry W E P) (n1 n2 : String)
    (f1 f2 : Creator W E P) (hne : n1 ≠ n2) :
    ((registerClass n1 f1 s).1 = (registerClass n1 f1 (registerClass n2 f2 s).2).1 ∧
     (registerClass n2 f2 (registerClass n1 f1 s).2).1 = (registerClass n2 f2 s).1) ∧
    (∀ m, (registerClass n2 f2 (registerClass n1 f1 s).2).2.find m
        = (registerClass n1 f1 (registerClass n2 f2 s).2).2.find m) ∧
    (∀ m w, create m (registerClass n2 f2 (registerClass n1 f1 s).2).2 w
        = create m (registerClass n1 f1 (registerClass n2 f2 s).2).2 w) ∧
    (∀ (calls1 calls2 : List (String × Creator W E P)), calls1.Perm calls2 →
      (calls1.map Prod.fst).Nodup →
      ∀ m, (registerAll calls1 s).find m = (registerAll calls2 s).find m ∧
        ∀ w, create m (registerAll calls1 s) w = create m (registerAll calls2 s) w) := by
  have hfind : ∀ m, (registerClass n2 f2 (registerClass n1 f1 s).2).2.find m
      = (registerClass n1 f1 (registerClass n2 f2 s).2).2.find m := by
    intro m
    have h12 := registerAll_find [(n1, f1), (n2, f2)] s m
    have h21 := registerAll_find [(n2, f2), (n1, f1)] s m
    have hperm : List.find? (fun c => c.1 == m) [(n1, f1), (n2, f2)]
        = List.find? (fun c => c.1 == m) [(n2, f2), (n1, f1)] :=
      find?_key_perm _ _ (List.Perm.swap _ _ _) (by simp [hne]) m
    have e12 : registerAll [(n1, f1), (n2, f2)] s
        = (registerClass n2 f2 (registerClass n1 f1 s).2).2 := rfl
    have e21 : registerAll [(n2, f2), (n1, f1)] s
        = (registerClass n1 f1 (registerClass n2 f2 s).2).2 := rfl
    rw [← e12, ← e21, h12, h21, hperm]
  refine ⟨⟨(registerClass_outcome_of_ne n2 n1 f2 f1 s (Ne.symm hne)).symm,
    registerClass_outcome_of_ne n1 n2 f1 f2 s hne⟩, hfind, ?_, ?_⟩
  · intro m w
    exact create_congr_find m _ _ (hfind m) w
  · intro calls1 calls2 hp hnd m
    have hf : (registerAll calls1 s).find m = (registerAll calls2 s).find m := by
      rw [registerAll_find, registerAll_find, find?_key_perm calls1 calls2 hp hnd m]
    exact ⟨hf, fun w => create_congr_find m _ _ hf w⟩

/-- C14 at a concrete input: `"print"` and `"exit"` registered in the empty map
in both orders. -/
theorem registration_order_irrelevant_witness :
    "print" ≠ "exit" ∧
    (∀ m w, create m (registerClass "exit" (makeCreator .ExitCommand)
          (registerClass "print" (makeCreator .PrintCommand)
            (Registry.instance : Registry Heap Empty Nat)).2).2 w
        = create m (registerClass "print" (makeCreator .PrintCommand)
          (registerClass "exit" (makeCreator .ExitCommand)
            (Registry.instance : Registry Heap Empty Nat)).2).2 w) ∧
    (registerClass "exit" (makeCreator .ExitCommand)
        (registerClass "print" (makeCreator .PrintCommand)
          (Registry.instance : Registry Heap Empty Nat)).2).2.keys = ["print", "exit"] ∧
    (registerClass "print" (makeCreator .PrintCommand)
        (registerClass "exit" (makeCreator .ExitCommand)
          (Registry.instance : Registry Heap Empty Nat)).2).2.keys = ["exit", "print"] :=
  ⟨by decide,
    (registration_order_irrelevant (Registry.instance : Registry Heap Empty Nat) "print" "exit"
      (makeCreator .PrintCommand) (makeCreator .ExitCommand) (by decide)).2.2.1,
    by decide, by decide⟩

/-! ## Sequences of `create` calls -/

theorem run_create_registry {W E P : Type} (names : List String) (s : Process W E P) :
    (run (names.map Call.create) s).2.registry = s.registry := by
  induction names generalizing s with
  | nil => rfl
  | cons n names ih =>
    rw [List.map_cons]
    cases ht : (exec (Call.create n) s).1.isTerminated with
    | true => rw [run_cons_terminated _ _ s ht]; rfl
    | false =>
      rw [run_cons_running _ _ s ht]
      exact ih (exec (Call.create n) s).2

/-! ## The empty name -/

/-- C16: `registerClass` checks nothing about the name but its absence from
the map: on a map without the empty string, `registerClass("", f)` returns
`true`, and afterwards `create("")` is the invocation of `f` and returns what
`f` returns. -/
theorem registerClass_empty_name {W E P : Type} (s : Registry W E P) (f : Creator W E P)
    (h : "" ∉ s.keys) :
    registerClass "" f s = (.returned true, s.emplace "" f) ∧
    (registerClass "" f s).2.find "" = some ("", f) ∧
    (∀ w, create "" (registerClass "" f s).2 w = noexcept (f.invoke w)) ∧
    (∀ w p w1, f.invoke w = (.returned p, w1) →
      create "" (registerClass "" f s).2 w = (.returned p, w1)) := by
  have ha : s.find "" = none := (s.not_mem_keys_iff "").1 h
  have hr := registerClass_of_absent "" f s ha
  have hf : (s.emplace "" f).find "" = some ("", f) := Registry.find_emplace_self s "" f ha
  rw [hr]
  refine ⟨rfl, hf, fun w => create_of_present "" _ _ hf w, ?_⟩
  intro w p w1 hinv
  rw [create_of_present "" _ _ hf w]
  exact noexcept_of_returned hinv

/-- C16 at a concrete input: the empty string registered for `PrintCommand` in
the map of the example. -/
theorem registerClass_empty_name_witness :
    "" ∉ exampleRegistry.keys ∧
    (registerClass "" (makeCreator .PrintCommand) exampleRegistry
        = (.returned true, exampleRegistry.emplace "" (makeCreator .PrintCommand)) ∧
     (registerClass "" (makeCreator .PrintCommand) exampleRegistry).2.find ""
        = some ("", makeCreator .PrintCommand) ∧
     (∀ w, create "" (registerClass "" (makeCreator .PrintCommand) exampleRegistry).2 w
        = noexcept ((makeCreator .PrintCommand).invoke w)) ∧
     (∀ w p w1, (makeCreator .PrintCommand : Creator Heap Empty Nat).invoke w = (.returned p, w1) →
        create "" (registerClass "" (makeCreator .PrintCommand) exampleRegistry).2 w
          = (.returned p, w1))) ∧
    create "" (registerClass "" (makeCreator .PrintCommand) exampleRegistry).2 []
      = (.returned (some 0), [.PrintCommand]) :=
  ⟨by decide,
    registerClass_empty_name exampleRegistry (makeCreator .PrintCommand) (by decide),
    by decide⟩

/-! ## `create` and creators that call back into the registry -/

theorem Registry.outside_find {W E P : Type} (reg : Registry W E P) (name : String) :
    reg.outside.find name
      = (reg.find name).map (fun e => (e.1, ReentrantCreator.outside e.2)) := by
  unfold Registry.outside ReentrantRegistry.find Registry.find
  induction reg with
  | nil => rfl
  | cons e reg ih =>
    by_cases h : e.1 = name
    · simp [List.find?_cons, h]
    · simp only [List.map_cons, List.find?_cons]
      have hb : (e.1 == name) = false := by simpa using h
      simp only [hb]
      exact ih

theorem Registry.outside_count {W E P : Type} (reg : Registry W E P) (name : String) :
    reg.outside.count name = reg.count name := by
  unfold Registry.outside ReentrantRegistry.count Registry.count
  induction reg with
  | nil => rfl
  | cons e reg ih =>
    by_cases h : e.1 = name
    · simp [List.filter_cons, h]
      simpa using ih
    · simp [List.filter_cons, h]
      simpa using ih

/-- On a map whose creators stay outside the registry, `registerClass` with
such a creator is the `registerClass` of the first sections. -/
theorem registerClassReentrant_outside {W E P : Type} (name : String) (creator : Creator W E P)
    (reg : Registry W E P) :
    registerClassReentrant name (.outside creator) reg.outside
      = ((registerClass name creator reg).1, (registerClass name creator reg).2.outside) := by
  unfold registerClassReentrant registerClass ReentrantRegistry.emplace Registry.emplace
  rw [Registry.outside_count]
  by_cases h : reg.count name = 0
  · simp [h, Registry.outside]
  · simp [h]

/-- On a map whose creators stay outside the registry, `create` is the
`create` of the first sections and leaves the map as it was. -/
theorem createReentrant_outside {W E P : Type} (name : String) (reg : Registry W E P) (w : W) :
    createReentrant name reg.outside w
      = ((create name reg w).1, ((create name reg w).2, reg.outside)) := by
  unfold createReentrant create
  rw [Registry.outside_find]
  cases reg.find name with
  | none => rfl
  | some e =>
    show noexcept ((e.2.invoke w).1, ((e.2.invoke w).2, reg.outside))
      = ((noexcept (e.2.invoke w)).1, ((noexcept (e.2.invoke w)).2, reg.outside))
    rcases e.2.invoke w with ⟨o, w1⟩
    cases o <;> rfl

theorem noexcept_snd_snd {W V E α : Type} (r : Outcome E α × (W × V)) :
    (noexcept r).2.2 = r.2.2 := by
  rw [noexcept_snd]

theorem createReentrant_registry_of_absent {W E P : Type} (n : String)
    (s : ReentrantRegistry W E P) (w : W) (h : s.find n = none) :
    (createReentrant n s w).2.2 = s := by
  unfold createReentrant
  rw [noexcept_snd_snd, h]

theorem createReentrant_registry_of_outside {W E P : Type} (n : String)
    (s : ReentrantRegistry W E P) (w : W) (e : String × ReentrantCreator W E P)
    (c : Creator W E P) (h : s.find n = some e) (hc : e.2 = .outside c) :
    (createReentrant n s w).2.2 = s := by
  unfold createReentrant
  rw [noexcept_snd_snd, h]
  show (e.2.invoke s w).2.2 = s
  rw [hc]
  rfl

theorem registerClassReentrant_extends {W E P : Type} (name : String)
    (creator : ReentrantCreator W E P) (reg : ReentrantRegistry W E P) :
    reg <+: (registerClassReentrant name creator reg).2 := by
  unfold registerClassReentrant ReentrantRegistry.emplace
  by_cases h : reg.count name = 0
  · simp [h]
  · simp [h]

/-- Whatever a stored creator does, it only adds entries to the map: the map
before its invocation is an initial segment of the map after it. -/
theorem ReentrantCreator.invoke_extends {W E P : Type} (c : ReentrantCreator W E P)
    (reg : ReentrantRegistry W E P) (w : W) : reg <+: (c.invoke reg w).2.2 := by
  induction c generalizing reg with
  | outside c => exact List.prefix_refl reg
  | registering name creator rest _ ih =>
    have hp := registerClassReentrant_extends name creator reg
    unfold ReentrantCreator.invoke
    rcases hr : registerClassReentrant name creator reg with ⟨o, reg1⟩
    rw [hr] at hp
    cases o with
    | returned b => exact hp.trans (ih reg1)
    | threw e => exact hp
    | terminated => exact hp

/-- The map before `create` is an initial segment of the map after it: `create`
removes and replaces nothing, whatever the creator it invokes does. -/
theorem createReentrant_extends {W E P : Type} (n : String) (s : ReentrantRegistry W E P)
    (w : W) : s <+: (createReentrant n s w).2.2 := by
  unfold createReentrant
  rw [noexcept_snd_snd]
  cases h : s.find n with
  | none => exact List.prefix_refl s
  | some e => exact ReentrantCreator.invoke_extends e.2 s w

/-- C15, refuted as stated: `"print"` is registered with a creator whose code
calls `registerClass("late", ...)` before it makes its object.  The map after
`create("print")` has the keys `"print"` and `"late"` and so differs from the
map before; a later `registerClass("late", ...)` now throws, a later
`create("late")` now returns an object, and a second `create("print")`
terminates. -/
theorem create_read_only_counterexample :
    (registerClassReentrant "print"
          (ReentrantCreator.registering "late" (.outside (makeCreator .ExitCommand))
            (.outside (makeCreator .PrintCommand)))
          ([] : ReentrantRegistry Heap Empty Nat)).2.map Prod.fst = ["print"] ∧
    (createReentrant "print"
        (registerClassReentrant "print"
          (ReentrantCreator.registering "late" (.outside (makeCreator .ExitCommand))
            (.outside (makeCreator .PrintCommand)))
          ([] : ReentrantRegistry Heap Empty Nat)).2 []).1 = .returned (some 0) ∧
    (createReentrant "print"
        (registerClassReentrant "print"
          (ReentrantCreator.registering "late" (.outside (makeCreator .ExitCommand))
            (.outside (makeCreator .PrintCommand)))
          ([] : ReentrantRegistry Heap Empty Nat)).2 []).2.2.map Prod.fst = ["print", "late"] ∧
    (createReentrant "print"
        (registerClassReentrant "print"
          (ReentrantCreator.registering "late" (.outside (makeCreator .ExitCommand))
            (.outside (makeCreator .PrintCommand)))
          ([] : ReentrantRegistry Heap Empty Nat)).2 []).2.2
      ≠ (registerClassReentrant "print"
          (ReentrantCreator.registering "late" (.outside (makeCreator .ExitCommand))
            (.outside (makeCreator .PrintCommand)))
          ([] : ReentrantRegistry Heap Empty Nat)).2 ∧
    (registerClassReentrant "late" (.outside (makeCreator .ExitCommand))
        (registerClassReentrant "print"
          (ReentrantCreator.registering "late" (.outside (makeCreator .ExitCommand))
            (.outside (makeCreator .PrintCommand)))
          ([] : ReentrantRegistry Heap Empty Nat)).2).1 = .returned true ∧
    (registerClassReentrant "late" (.outside (makeCreator .ExitCommand))
        (createReentrant "print"
        (registerClassReentrant "print"
          (ReentrantCreator.registering "late" (.outside (makeCreator .ExitCommand))
            (.outside (makeCreator .PrintCommand)))
          ([] : ReentrantRegistry Heap Empty Nat)).2 []).2.2).1
      = .threw (.runtime_error (duplicateMessage "late")) ∧
    (createReentrant "late"
        (registerClassReentrant "print"
          (ReentrantCreator.registering "late" (.outside (makeCreator .ExitCommand))
            (.outside (makeCreator .PrintCommand)))
          ([] : ReentrantRegistry Heap Empty Nat)).2 []).1 = .returned none ∧
    (createReentrant "late"
        (createReentrant "print"
        (registerClassReentrant "print"
          (ReentrantCreator.registering "late" (.outside (makeCreator .ExitCommand))
            (.outside (makeCreator .PrintCommand)))
          ([] : ReentrantRegistry Heap Empty Nat)).2 []).2.2 []).1 = .returned (some 0) ∧
    (createReentrant "print"
        (createReentrant "print"
        (registerClassReentrant "print"
          (ReentrantCreator.registering "late" (.outside (makeCreator .ExitCommand))
            (.outside (makeCreator .PrintCommand)))
          ([] : ReentrantRegistry Heap Empty Nat)).2 []).2.2 []).1 = .terminated := by
  refine ⟨by decide, by decide, by decide, ?_, by decide, by decide, by decide, by decide,
    by decide⟩
  intro h
  have hk := congrArg (fun r => List.map Prod.fst r) h
  revert hk
  decide

/-- C15, amended: when `n` is not registered, or is registered with a creator
whose code stays outside the registry, the map after `create(n)` is the map
before it; a later `registerClass` or `create` then does on it, on every
program state, what it would have done without that call. -/
theorem createReentrant_read_only {W E P : Type} (s : ReentrantRegistry W E P) (n : String)
    (w : W) (h : s.find n = none ∨ ∃ c, s.find n = some (n, .outside c)) :
    (createReentrant n s w).2.2 = s ∧
    (∀ m f, registerClassReentrant m f (createReentrant n s w).2.2
        = registerClassReentrant m f s) ∧
    (∀ m w1, createReentrant m (createReentrant n s w).2.2 w1 = createReentrant m s w1) := by
  have hs : (createReentrant n s w).2.2 = s := by
    rcases h with h | ⟨c, h⟩
    · exact createReentrant_registry_of_absent n s w h
    · exact createReentrant_registry_of_outside n s w _ c h rfl
  rw [hs]
  exact ⟨rfl, fun _ _ => rfl, fun _ _ => rfl⟩

/-- C15, amended, at a concrete input: `"print"` registered with the creator of
`PrintCommand`, whose code stays outside the registry. -/
theorem createReentrant_read_only_witness :
    ((registerClassReentrant "print" (.outside (makeCreator .PrintCommand))
        ([] : ReentrantRegistry Heap Empty Nat)).2.find "print" = none ∨
      ∃ c, (registerClassReentrant "print" (.outside (makeCreator .PrintCommand))
        ([] : ReentrantRegistry Heap Empty Nat)).2.find "print"
        = some ("print", .outside c)) ∧
    ((createReentrant "print"
        (registerClassReentrant "print" (.outside (makeCreator .PrintCommand))
        ([] : ReentrantRegistry Heap Empty Nat)).2 []).2.2
      = (registerClassReentrant "print" (.outside (makeCreator .PrintCommand))
        ([] : ReentrantRegistry Heap Empty Nat)).2 ∧
     (∀ m f, registerClassReentrant m f (createReentrant "print"
        (registerClassReentrant "print" (.outside (makeCreator .PrintCommand))
        ([] : ReentrantRegistry Heap Empty Nat)).2 []).2.2
        = registerClassReentrant m f
            (registerClassReentrant "print" (.outside (makeCreator .PrintCommand))
        ([] : ReentrantRegistry Heap Empty Nat)).2) ∧
     (∀ m w1, createReentrant m (createReentrant "print"
        (registerClassReentrant "print" (.outside (makeCreator .PrintCommand))
        ([] : ReentrantRegistry Heap Empty Nat)).2 []).2.2 w1
        = createReentrant m
            (registerClassReentrant "print" (.outside (makeCreator .PrintCommand))
        ([] : ReentrantRegistry Heap Empty Nat)).2 w1)) ∧
    (createReentrant "print"
        (registerClassReentrant "print" (.outside (makeCreator .PrintCommand))
        ([] : ReentrantRegistry Heap Empty Nat)).2 []).1 = .returned (some 0) ∧
    (createReentrant "print"
        (registerClassReentrant "print" (.outside (makeCreator .PrintCommand))
        ([] : ReentrantRegistry Heap Empty Nat)).2 []).2.1 = [.PrintCommand] :=
  ⟨Or.inr ⟨makeCreator .PrintCommand, rfl⟩,
    createReentrant_read_only
      (registerClassReentrant "print" (.outside (makeCreator .PrintCommand))
        ([] : ReentrantRegistry Heap Empty Nat)).2
      "print" [] (Or.inr ⟨makeCreator .PrintCommand, rfl⟩),
    by decide, by decide⟩

end TsukinoRegistryFactory
